import Mathlib

/-!
Shallow embedding of the screenshot capture client in src/src/App.tsx:
the image tiler (splitImage), the request parameter builder (buildApiUrl
and its setter helpers), the error-message builder (handleApiError),
the filename derivation (extractRootDomain, getCurrentDate,
downloadAllSections, processScreenshotResponse) and the capture state
machine (takeScreenshot).  JavaScript machine integers are modelled with
Nat/Int plus an explicit NaN constructor where parseInt can fail; the
browser URL constructor and URLSearchParams are modelled explicitly
below.
-/

/-- A JavaScript number as produced by Number.parseInt: either an integer
or NaN. -/
inductive JSNum where
  | nan : JSNum
  | int (i : Int) : JSNum
deriving DecidableEq

/-- Model of Number.parseInt(s, 10): skip leading whitespace, optional
sign, then decimal digits; NaN when no digit is found; trailing
characters are ignored. -/
def jsParseInt (s : String) : JSNum :=
  let cs := s.data.dropWhile (fun c => c.isWhitespace)
  let signAndRest : Bool × List Char :=
    match cs with
    | '-' :: rest => (true, rest)
    | '+' :: rest => (false, rest)
    | _ => (false, cs)
  let digits := signAndRest.2.takeWhile (fun c => c.isDigit)
  if digits.isEmpty then JSNum.nan
  else
    let n : Nat := digits.foldl (fun a c => a * 10 + (c.toNat - '0'.toNat)) 0
    JSNum.int (if signAndRest.1 then -(n : Int) else (n : Int))

/-- Model of Math.min on two parseInt results: NaN is contagious. -/
def jsMin : JSNum → JSNum → JSNum
  | JSNum.nan, _ => JSNum.nan
  | JSNum.int _, JSNum.nan => JSNum.nan
  | JSNum.int a, JSNum.int b => JSNum.int (min a b)

/-- Model of Number.prototype.toString for integers and NaN. -/
def jsNumToString : JSNum → String
  | JSNum.nan => "NaN"
  | JSNum.int i => toString i

/-- listStartsWith as bs: as begins with bs (model of
String.prototype.startsWith, over character lists). -/
def listStartsWith : List Char → List Char → Bool
  | _, [] => true
  | [], _ :: _ => false
  | a :: as, b :: bs => a = b && listStartsWith as bs

/-- Model of String.prototype.startsWith. -/
def strStartsWith (s p : String) : Bool := listStartsWith s.data p.data

/-- Drop the first n characters of a string. -/
def strDrop (s : String) (n : Nat) : String := String.mk (s.data.drop n)

/-- Model of String.prototype.padStart(2, "0") on an already rendered
number. -/
def padStart2 (s : String) : String :=
  if s.data.length ≥ 2 then s
  else String.mk (List.replicate (2 - s.data.length) '0' ++ s.data)

/-- Model of script.replace(/\s+/g, " ").trim(): collapse every
whitespace run to a single space and remove leading/trailing
whitespace. -/
def collapseWs (s : String) : String :=
  String.intercalate " " ((s.split Char.isWhitespace).filter (fun t => !t.isEmpty))

/-- A character allowed inside a URL scheme after its first letter. -/
def isSchemeChar (c : Char) : Bool :=
  c.isAlphanum || c = '+' || c = '-' || c = '.'

/-- Forbidden host code points of the WHATWG URL parser (the browser
URL constructor used by the source throws when the host of a special
scheme contains one). -/
def forbiddenHostChar (c : Char) : Bool :=
  c = ' ' || c = '#' || c = '/' || c = '<' || c = '>' || c = '?' ||
  c = '@' || c = '[' || c = ']' || c = '\\' || c = '^' || c = '|' ||
  c = '%' || c.val < 32

/-- The characters after the last @ of an authority (userinfo is
discarded by the URL parser when extracting the host). -/
def afterLastAt (cs : List Char) : List Char :=
  cs.foldl (fun acc c => if c = '@' then [] else acc ++ [c]) []

/-- The observable parts of a parsed browser URL that the source
reads: protocol and hostname. -/
structure UrlObj where
  protocol : String
  hostname : String
deriving DecidableEq

/-- Model of the browser URL constructor (new URL(s)), restricted to
the observations the source makes (protocol, hostname, and whether the
constructor throws).  A scheme is a letter followed by scheme
characters and a colon.  For the special schemes http and https the
slashes are skipped, userinfo and port are stripped from the authority,
the host must be nonempty, free of forbidden host code points, and any
port must be all digits; the hostname is lowercased.  A non-special
scheme has a hostname only after an explicit //. -/
def parseUrl (s : String) : Option UrlObj :=
  match s.data with
  | [] => none
  | c :: rest =>
    if !c.isAlpha then none
    else
      match rest.dropWhile isSchemeChar with
      | ':' :: tail =>
        let scheme := String.mk ((c :: rest.takeWhile isSchemeChar).map Char.toLower)
        if scheme = "http" || scheme = "https" then
          let tail2 := tail.dropWhile (fun ch => ch = '/' || ch = '\\')
          let authority := tail2.takeWhile
            (fun ch => !(ch = '/' || ch = '?' || ch = '#' || ch = '\\'))
          let hostport := afterLastAt authority
          let host := hostport.takeWhile (fun ch => ch ≠ ':')
          let port := (hostport.dropWhile (fun ch => ch ≠ ':')).drop 1
          if host.isEmpty then none
          else if host.any forbiddenHostChar then none
          else if !port.all (fun ch => ch.isDigit) then none
          else some { protocol := scheme ++ ":", hostname := String.mk (host.map Char.toLower) }
        else
          match tail with
          | '/' :: '/' :: tail2 =>
            let authority := tail2.takeWhile
              (fun ch => !(ch = '/' || ch = '?' || ch = '#'))
            let hostport := afterLastAt authority
            let host := hostport.takeWhile (fun ch => ch ≠ ':')
            some { protocol := scheme ++ ":", hostname := String.mk (host.map Char.toLower) }
          | _ => some { protocol := scheme ++ ":", hostname := "" }
      | _ => none

/-- The string handed to the URL constructor by the source:
urlString.startsWith("http") ? urlString : https:// + urlString. -/
def toUrlInput (s : String) : String :=
  if strStartsWith s "http" then s else "https://" ++ s

/-- Model of isValidUrl (src/src/App.tsx lines 177-186). -/
def isValidUrl (s : String) : Bool :=
  match parseUrl (toUrlInput s) with
  | some u => u.protocol = "http:" || u.protocol = "https:"
  | none => false

/-- hostname.replace(/^www\./, ""): strip one leading www. only. -/
def stripLeadingWww (h : String) : String :=
  if strStartsWith h "www." then strDrop h 4 else h

/-- Model of extractRootDomain (src/src/App.tsx lines 189-198). -/
def extractRootDomain (s : String) : String :=
  match parseUrl (toUrlInput s) with
  | some u => stripLeadingWww u.hostname
  | none => "website"

/-- The notion of a URL scheme being present, as the claim words it:
stated independently of the source, for comparison with the code,
which only tests startsWith("http"). -/
def specHasScheme (s : String) : Bool :=
  match s.data with
  | [] => false
  | c :: rest =>
    c.isAlpha &&
      match rest.dropWhile isSchemeChar with
      | ':' :: _ => true
      | _ => false

/-- The fields of a JavaScript Date that getCurrentDate reads: getDate
(1-31), getMonth (0-11) and getFullYear. -/
structure JsDate where
  day : Nat
  month : Nat
  year : Nat
deriving DecidableEq

/-- Model of getCurrentDate (src/src/App.tsx lines 201-207):
DD-MM-YYYY with zero padding, month incremented from the 0-based
getMonth. -/
def getCurrentDate (d : JsDate) : String :=
  padStart2 (toString d.day) ++ "-" ++ padStart2 (toString (d.month + 1)) ++ "-" ++ toString d.year

/-- The output format enum of ScreenshotOptions. -/
inductive Format where
  | png | jpeg | webp | pdf | gif | mp4
deriving DecidableEq

/-- The wire name of a format. -/
def formatName : Format → String
  | Format.png => "png"
  | Format.jpeg => "jpeg"
  | Format.webp => "webp"
  | Format.pdf => "pdf"
  | Format.gif => "gif"
  | Format.mp4 => "mp4"

/-- The scrollStrategy enum of ScreenshotOptions. -/
inductive ScrollStrategy where
  | simple | progressive | custom
deriving DecidableEq

/-- The ScreenshotOptions interface (src/src/App.tsx lines 46-66). -/
structure ScreenshotOptions where
  format : Format
  fullPage : Bool
  viewportWidth : String
  viewportHeight : String
  devicePreset : String
  blockAds : Bool
  blockCookieBanners : Bool
  timeout : String
  cache : Bool
  deviceScaleFactor : String
  delay : String
  enableAnimatedCapture : Bool
  animationDuration : String
  scrollDelay : String
  waitUntil : String
  preScroll : Bool
  scrollStrategy : ScrollStrategy
  progressiveScrollSteps : String
  customScrollScript : String

/-- The simple-strategy scroll script template literal (src/src/App.tsx
lines 313-326), with braces written as escapes. -/
def simpleScrollScript : String :=
  "\n        // Simple scroll through page\n        const scrollHeight = document.documentElement.scrollHeight;\n        const viewportHeight = window.innerHeight;\n        const scrollSteps = Math.ceil(scrollHeight / viewportHeight);\n        \n        for (let i = 0; i < scrollSteps; i++) \x7b\n          window.scrollTo(0, i * viewportHeight);\n          await new Promise(resolve => setTimeout(resolve, 300));\n        \x7d\n        \n        window.scrollTo(0, 0);\n        await new Promise(resolve => setTimeout(resolve, 1000));\n      "

/-- Number.parseInt(progressiveScrollSteps, 10) with the JavaScript
or-else: NaN and 0 fall back to 10. -/
def progressiveSteps (s : String) : Int :=
  match jsParseInt s with
  | JSNum.nan => 10
  | JSNum.int i => if i = 0 then 10 else i

/-- The progressive-strategy scroll script template literal
(src/src/App.tsx lines 332-358) with the step count interpolated. -/
def progressiveScrollScript (steps : Int) : String :=
  "\n        // Progressive scroll with multiple pause points for scroll-driven content\n        const scrollHeight = document.documentElement.scrollHeight;\n        const viewportHeight = window.innerHeight;\n        const totalSteps = " ++ toString steps ++ ";\n        \n        // Scroll down progressively with longer pauses\n        for (let i = 0; i <= totalSteps; i++) \x7b\n          const scrollPosition = (scrollHeight * i) / totalSteps;\n          window.scrollTo(0, scrollPosition);\n          \n          // Longer pause at each step to let scroll-driven animations complete\n          await new Promise(resolve => setTimeout(resolve, 800));\n          \n          // Extra pause at quarter, half, three-quarter, and full scroll positions\n          if (i === Math.floor(totalSteps * 0.25) || \n              i === Math.floor(totalSteps * 0.5) || \n              i === Math.floor(totalSteps * 0.75) || \n              i === totalSteps) \x7b\n            await new Promise(resolve => setTimeout(resolve, 1500));\n          \x7d\n        \x7d\n        \n        // Go back to top and wait for final state\n        window.scrollTo(0, 0);\n        await new Promise(resolve => setTimeout(resolve, 2000));\n      "

/-- Model of generateScrollScript (src/src/App.tsx lines 307-369). -/
def generateScrollScript (o : ScreenshotOptions) : String :=
  if !o.preScroll then ""
  else if o.scrollStrategy = ScrollStrategy.simple then simpleScrollScript
  else if o.scrollStrategy = ScrollStrategy.progressive then
    progressiveScrollScript (progressiveSteps o.progressiveScrollSteps)
  else if o.scrollStrategy = ScrollStrategy.custom ∧ o.customScrollScript ≠ "" then
    o.customScrollScript
  else ""

/-- The outbound request URL: a base endpoint plus its searchParams,
modelled as a key-to-value map (URLSearchParams.set overwrites, and the
source never reads the serialization order). -/
structure ApiUrl where
  base : String
  params : String → Option String

/-- Model of apiUrl.searchParams.set(k, v). -/
def ApiUrl.set (u : ApiUrl) (k v : String) : ApiUrl :=
  { u with params := fun q => if q = k then some v else u.params q }

/-- Model of setViewportParams (src/src/App.tsx lines 372-396): the
JavaScript condition devicePreset && devicePreset !== "custom" is
nonempty-and-not-custom. -/
def setViewportParams (u : ApiUrl) (o : ScreenshotOptions) : ApiUrl :=
  if o.devicePreset ≠ "" ∧ o.devicePreset ≠ "custom" then
    u.set "viewport_device" o.devicePreset
  else
    let u := u.set "viewport_width" o.viewportWidth
    if o.viewportHeight ≠ "" then u.set "viewport_height" o.viewportHeight else u

/-- Model of setContentBlockingParams (src/src/App.tsx lines 399-409). -/
def setContentBlockingParams (u : ApiUrl) (o : ScreenshotOptions) : ApiUrl :=
  let u := if o.blockAds then u.set "block_ads" "true" else u
  if o.blockCookieBanners then u.set "block_cookie_banners" "true" else u

/-- Model of setRenderingParams (src/src/App.tsx lines 412-426). -/
def setRenderingParams (u : ApiUrl) (o : ScreenshotOptions) : ApiUrl :=
  let u := if o.deviceScaleFactor ≠ "1" then u.set "device_scale_factor" o.deviceScaleFactor else u
  let u := if o.timeout ≠ "60" then u.set "timeout" o.timeout else u
  u.set "cache" (toString o.cache)

/-- Model of setAnimationParams (src/src/App.tsx lines 429-453): the
delay is parseInt-ed and clamped by Math.min against 30 before being
serialized; the scroll script is attached, whitespace-collapsed, when
the generated script is nonempty. -/
def setAnimationParams (u : ApiUrl) (o : ScreenshotOptions) : ApiUrl :=
  let u := if o.delay ≠ "0" then
      u.set "delay" (jsNumToString (jsMin (jsParseInt o.delay) (JSNum.int 30)))
    else u
  let u := if o.waitUntil ≠ "load" then u.set "scripts_wait_until" o.waitUntil else u
  if generateScrollScript o ≠ "" then
    u.set "scripts" (collapseWs (generateScrollScript o))
  else u

/-- Model of buildApiUrl (src/src/App.tsx lines 456-481).  The trailing
gif branch of the source adds no parameter and is a no-op. -/
def buildApiUrl (fullUrl apiKeyValue : String) (o : ScreenshotOptions) : ApiUrl :=
  let u : ApiUrl := { base := "https://api.screenshotone.com/take", params := fun _ => none }
  let u := u.set "access_key" apiKeyValue
  let u := u.set "url" fullUrl
  let u := u.set "format" (formatName o.format)
  let u := u.set "full_page" (toString o.fullPage)
  let u := setViewportParams u o
  let u := setContentBlockingParams u o
  let u := setRenderingParams u o
  setAnimationParams u o

/-- A decoded raster image as the tiler reads it: dimensions plus the
pixel grid (pixel x y is the color at column x, row y). -/
structure DecodedImage where
  width : Nat
  height : Nat
  pixel : Nat → Nat → Nat

/-- The pixel content of one canvas snapshot. -/
structure SectionImage where
  width : Nat
  height : Nat
  pixel : Nat → Nat → Nat

/-- The payload stored in a ScreenshotSection: either the result of
canvas.toDataURL("image/png", 1.0), a lossless PNG encoding modelled by
its pixel grid, or a blob object URL wrapped untouched for the
non-tiled formats. -/
inductive DataUrl where
  | png (img : SectionImage) : DataUrl
  | blob (url : String) : DataUrl

/-- The ScreenshotSection interface (src/src/App.tsx lines 34-37). -/
structure ScreenshotSection where
  dataUrl : DataUrl
  index : Nat

/-- The pixel height of a section payload (0 for a raw blob). -/
def sectionPixelHeight (s : ScreenshotSection) : Nat :=
  match s.dataUrl with
  | DataUrl.png img => img.height
  | DataUrl.blob _ => 0

/-- The fixed maximum tile height of the tiler. -/
def tileMaxHeight : Nat := 4096

/-- Math.ceil(height / 4096), the section count of the tiler loop. -/
def totalSections (h : Nat) : Nat := (h + (tileMaxHeight - 1)) / tileMaxHeight

/-- One iteration of the splitImage loop: canvas resized to
(width, min(4096, height - startY)), cleared, the source block starting
at startY drawn at the origin, and the canvas encoded losslessly. -/
def sectionAt (img : DecodedImage) (i : Nat) : ScreenshotSection :=
  let startY := i * tileMaxHeight
  let sectionHeight := min tileMaxHeight (img.height - startY)
  { dataUrl := DataUrl.png
      { width := img.width
        height := sectionHeight
        pixel := fun x y => img.pixel x (startY + y) }
    index := i + 1 }

/-- Model of splitImage (src/src/App.tsx lines 210-253).  The two
leading guards model canvasRef.current and getContext("2d") being
null, each of which returns an empty section list. -/
def splitImage (canvasAvailable ctxAvailable : Bool) (img : DecodedImage) : List ScreenshotSection :=
  if !canvasAvailable then []
  else if !ctxAvailable then []
  else (List.range (totalSections img.height)).map (sectionAt img)

/-- Re-stacking a section list top-to-bottom: the color found at global
row y once the sections are concatenated in list order. -/
def restackPixel : List ScreenshotSection → Nat → Nat → Nat
  | [], _, _ => 0
  | s :: rest, x, y =>
    match s.dataUrl with
    | DataUrl.png img => if y < img.height then img.pixel x y else restackPixel rest x (y - img.height)
    | DataUrl.blob _ => restackPixel rest x y

/-- Model of String.prototype.trim: drop leading and trailing
whitespace. -/
def jsTrim (s : String) : String :=
  String.mk (((s.data.dropWhile (fun c => c.isWhitespace)).reverse.dropWhile
    (fun c => c.isWhitespace)).reverse)

/-- The transient capture state (src/src/App.tsx lines 39-44). -/
structure ScreenshotState where
  isLoading : Bool
  sections : List ScreenshotSection
  error : Option String
  success : Option String

/-- The hint appended for status 400. -/
def hint400 : String :=
  ". Common causes: Invalid API key (use access key, not secret key), invalid URL format, or missing required parameters."

/-- The hint appended for status 401. -/
def hint401 : String :=
  ". This usually means your API key is invalid or expired."

/-- The hint appended for status 403. -/
def hint403 : String :=
  ". This usually means you\x27ve exceeded your API quota or the API key doesn\x27t have permission."

/-- The fixed hint appended to the error message by status code. -/
def errorHint (status : Nat) : String :=
  if status = 400 then hint400
  else if status = 401 then hint401
  else if status = 403 then hint403
  else ""

/-- Model of handleApiError (src/src/App.tsx lines 484-508).  The body
argument is none when reading the response text throws (the source
swallows that failure), and some t when it reads t; an empty body adds
nothing. -/
def handleApiError (status : Nat) (statusText : String) (body : Option String) : String :=
  let base := "API error: " ++ toString status ++ " " ++ statusText
  let withBody :=
    match body with
    | some t => if t ≠ "" then base ++ " - " ++ t else base
    | none => base
  withBody ++ errorHint status

/-- The outcome of assigning img.src: onload fires with the decoded
image, or onerror fires. -/
inductive ImageLoad where
  | ok (img : DecodedImage) : ImageLoad
  | fail : ImageLoad

/-- Model of processScreenshotResponse (src/src/App.tsx lines 511-576).
Returns the resulting capture state together with the list of
(filename, payload) downloads it triggers itself (the pdf
auto-download).  The splitImage call cannot throw in this model, so the
catch branch of the source (lines 534-542) is unreachable here; the
onerror branch is the fail case. -/
def processScreenshotResponse (canvasAvailable ctxAvailable : Bool) (imageUrl : String)
    (load : ImageLoad) (o : ScreenshotOptions) (pageUrl : String) (now : JsDate) :
    ScreenshotState × List (String × DataUrl) :=
  if o.format = Format.png ∧ o.fullPage then
    match load with
    | ImageLoad.ok img =>
      let sections := splitImage canvasAvailable ctxAvailable img
      ({ isLoading := false
         sections := sections
         error := none
         success := some (if sections.length > 1 then
             "Screenshot captured and split into " ++ toString sections.length ++ " sections!"
           else "Screenshot captured successfully!") }, [])
    | ImageLoad.fail =>
      ({ isLoading := false
         sections := []
         error := some "Failed to load the screenshot image"
         success := none }, [])
  else
    let rootDomain := extractRootDomain pageUrl
    let date := getCurrentDate now
    let extension := if o.format = Format.jpeg then "jpg" else formatName o.format
    let filename := rootDomain ++ "-" ++ date ++ "." ++ extension
    ({ isLoading := false
       sections := [{ dataUrl := DataUrl.blob imageUrl, index := 1 }]
       error := none
       success := some ("Screenshot captured successfully! Click to download "
         ++ (formatName o.format).toUpper ++ " file.") },
     if o.format = Format.pdf then [(filename, DataUrl.blob imageUrl)] else [])

/-- Model of downloadAllSections (src/src/App.tsx lines 266-289):
returns the (filename, payload) downloads in section order and the
success message it sets (none on the empty no-op). -/
def downloadAllSections (sections : List ScreenshotSection) (o : ScreenshotOptions)
    (url : String) (now : JsDate) : List (String × DataUrl) × Option String :=
  if sections.length = 0 then ([], none)
  else
    let rootDomain := extractRootDomain url
    let date := getCurrentDate now
    let extension := if o.format = Format.jpeg then "jpg" else formatName o.format
    (sections.map (fun s =>
        (rootDomain ++ "-" ++ date ++ "-section-" ++ toString s.index ++ "." ++ extension,
         s.dataUrl)),
     some ("Downloaded " ++ toString sections.length ++ " sections successfully!"))

/-- One network outcome of the fetch in takeScreenshot: a non-ok
response with its status, statusText and best-effort body text, or an
ok response whose blob URL then loads or fails to load. -/
inductive FetchResult where
  | httpError (status : Nat) (statusText : String) (body : Option String) : FetchResult
  | ok (imageUrl : String) (load : ImageLoad) : FetchResult

/-- Model of takeScreenshot (src/src/App.tsx lines 579-640) as one
state transition from the previous capture state to the final one.
Returns the final state, the request that was sent (none when
validation stopped the attempt) and the downloads triggered.  The two
validation branches spread the previous state and only set error; the
non-ok branch is the thrown handleApiError message landing in the
catch. -/
def takeScreenshot (prev : ScreenshotState) (url apiKey : String) (o : ScreenshotOptions)
    (fetch : FetchResult) (canvasAvailable ctxAvailable : Bool) (now : JsDate) :
    ScreenshotState × Option ApiUrl × List (String × DataUrl) :=
  if !isValidUrl url then
    ({ prev with error := some "Please enter a valid URL (e.g., https://example.com or example.com)" },
     none, [])
  else if jsTrim apiKey = "" then
    ({ prev with error := some "Please enter your ScreenshotOne API key" }, none, [])
  else
    let fullUrl := if strStartsWith url "http" then url else "https://" ++ url
    let apiUrl := buildApiUrl fullUrl apiKey o
    match fetch with
    | FetchResult.httpError st stt body =>
      ({ isLoading := false
         sections := []
         error := some (handleApiError st stt body)
         success := none }, some apiUrl, [])
    | FetchResult.ok imageUrl load =>
      let r := processScreenshotResponse canvasAvailable ctxAvailable imageUrl load o url now
      (r.1, some apiUrl, r.2)

lemma ApiUrl.params_set_self (u : ApiUrl) (k v : String) : (u.set k v).params k = some v := by
  simp [ApiUrl.set]

lemma ApiUrl.params_set_ne (u : ApiUrl) (k v q : String) (h : q ≠ k) :
    (u.set k v).params q = u.params q := by
  simp [ApiUrl.set, h]

lemma setViewportParams_params_other (u : ApiUrl) (o : ScreenshotOptions) (q : String)
    (h1 : q ≠ "viewport_device") (h2 : q ≠ "viewport_width") (h3 : q ≠ "viewport_height") :
    (setViewportParams u o).params q = u.params q := by
  unfold setViewportParams
  split_ifs <;> simp [ApiUrl.set, h1, h2, h3]

lemma setContentBlockingParams_params_other (u : ApiUrl) (o : ScreenshotOptions) (q : String)
    (h1 : q ≠ "block_ads") (h2 : q ≠ "block_cookie_banners") :
    (setContentBlockingParams u o).params q = u.params q := by
  unfold setContentBlockingParams
  split_ifs <;> simp [ApiUrl.set, h1, h2]

lemma setRenderingParams_params_other (u : ApiUrl) (o : ScreenshotOptions) (q : String)
    (h1 : q ≠ "device_scale_factor") (h2 : q ≠ "timeout") (h3 : q ≠ "cache") :
    (setRenderingParams u o).params q = u.params q := by
  unfold setRenderingParams
  split_ifs <;> simp [ApiUrl.set, h1, h2, h3]

lemma setAnimationParams_params_other (u : ApiUrl) (o : ScreenshotOptions) (q : String)
    (h1 : q ≠ "delay") (h2 : q ≠ "scripts_wait_until") (h3 : q ≠ "scripts") :
    (setAnimationParams u o).params q = u.params q := by
  unfold setAnimationParams
  split_ifs <;> simp [ApiUrl.set, h1, h2, h3]

lemma buildApiUrl_params_url (f k : String) (o : ScreenshotOptions) :
    (buildApiUrl f k o).params "url" = some f := by
  unfold buildApiUrl
  rw [setAnimationParams_params_other _ _ _ (by decide) (by decide) (by decide),
      setRenderingParams_params_other _ _ _ (by decide) (by decide) (by decide),
      setContentBlockingParams_params_other _ _ _ (by decide) (by decide),
      setViewportParams_params_other _ _ _ (by decide) (by decide) (by decide),
      ApiUrl.params_set_ne _ _ _ _ (by decide),
      ApiUrl.params_set_ne _ _ _ _ (by decide),
      ApiUrl.params_set_self]


lemma setAnimationParams_params_delay (u : ApiUrl) (o : ScreenshotOptions) :
    (setAnimationParams u o).params "delay" =
      if o.delay = "0" then u.params "delay"
      else some (jsNumToString (jsMin (jsParseInt o.delay) (JSNum.int 30))) := by
  unfold setAnimationParams
  split_ifs <;> simp_all [ApiUrl.set]

lemma setRenderingParams_params_cache (u : ApiUrl) (o : ScreenshotOptions) :
    (setRenderingParams u o).params "cache" = some (toString o.cache) := by
  unfold setRenderingParams
  split_ifs <;> simp [ApiUrl.set]

lemma setRenderingParams_params_scale (u : ApiUrl) (o : ScreenshotOptions) :
    (setRenderingParams u o).params "device_scale_factor" =
      if o.deviceScaleFactor = "1" then u.params "device_scale_factor"
      else some o.deviceScaleFactor := by
  unfold setRenderingParams
  split_ifs <;> simp_all [ApiUrl.set]

lemma setRenderingParams_params_timeout (u : ApiUrl) (o : ScreenshotOptions) :
    (setRenderingParams u o).params "timeout" =
      if o.timeout = "60" then u.params "timeout" else some o.timeout := by
  unfold setRenderingParams
  split_ifs <;> simp_all [ApiUrl.set]

lemma setAnimationParams_params_wait (u : ApiUrl) (o : ScreenshotOptions) :
    (setAnimationParams u o).params "scripts_wait_until" =
      if o.waitUntil = "load" then u.params "scripts_wait_until" else some o.waitUntil := by
  unfold setAnimationParams
  split_ifs <;> simp_all [ApiUrl.set]

lemma setViewportParams_params_device (u : ApiUrl) (o : ScreenshotOptions)
    (h : o.devicePreset ≠ "" ∧ o.devicePreset ≠ "custom") :
    (setViewportParams u o).params "viewport_device" = some o.devicePreset ∧
    (setViewportParams u o).params "viewport_width" = u.params "viewport_width" ∧
    (setViewportParams u o).params "viewport_height" = u.params "viewport_height" := by
  unfold setViewportParams
  rw [if_pos h]
  refine ⟨?_, ?_, ?_⟩ <;> simp [ApiUrl.set]

lemma setViewportParams_params_custom (u : ApiUrl) (o : ScreenshotOptions)
    (h : o.devicePreset = "" ∨ o.devicePreset = "custom") :
    (setViewportParams u o).params "viewport_device" = u.params "viewport_device" ∧
    (setViewportParams u o).params "viewport_width" = some o.viewportWidth ∧
    (setViewportParams u o).params "viewport_height" =
      (if o.viewportHeight = "" then u.params "viewport_height" else some o.viewportHeight) := by
  unfold setViewportParams
  rw [if_neg (by rcases h with h | h <;> simp [h])]
  split_ifs <;> simp_all [ApiUrl.set]

lemma buildApiUrl_params_delay (f k : String) (o : ScreenshotOptions) :
    (buildApiUrl f k o).params "delay" =
      if o.delay = "0" then none
      else some (jsNumToString (jsMin (jsParseInt o.delay) (JSNum.int 30))) := by
  unfold buildApiUrl
  rw [setAnimationParams_params_delay]
  split_ifs
  · rw [setRenderingParams_params_other _ _ _ (by decide) (by decide) (by decide),
        setContentBlockingParams_params_other _ _ _ (by decide) (by decide),
        setViewportParams_params_other _ _ _ (by decide) (by decide) (by decide),
        ApiUrl.params_set_ne _ _ _ _ (by decide), ApiUrl.params_set_ne _ _ _ _ (by decide),
        ApiUrl.params_set_ne _ _ _ _ (by decide), ApiUrl.params_set_ne _ _ _ _ (by decide)]
  · rfl

lemma buildApiUrl_params_cache (f k : String) (o : ScreenshotOptions) :
    (buildApiUrl f k o).params "cache" = some (toString o.cache) := by
  unfold buildApiUrl
  rw [setAnimationParams_params_other _ _ _ (by decide) (by decide) (by decide),
      setRenderingParams_params_cache]

lemma buildApiUrl_params_scale (f k : String) (o : ScreenshotOptions) :
    (buildApiUrl f k o).params "device_scale_factor" =
      if o.deviceScaleFactor = "1" then none else some o.deviceScaleFactor := by
  unfold buildApiUrl
  rw [setAnimationParams_params_other _ _ _ (by decide) (by decide) (by decide),
      setRenderingParams_params_scale]
  split_ifs
  · rw [setContentBlockingParams_params_other _ _ _ (by decide) (by decide),
        setViewportParams_params_other _ _ _ (by decide) (by decide) (by decide),
        ApiUrl.params_set_ne _ _ _ _ (by decide), ApiUrl.params_set_ne _ _ _ _ (by decide),
        ApiUrl.params_set_ne _ _ _ _ (by decide), ApiUrl.params_set_ne _ _ _ _ (by decide)]
  · rfl

lemma buildApiUrl_params_timeout (f k : String) (o : ScreenshotOptions) :
    (buildApiUrl f k o).params "timeout" =
      if o.timeout = "60" then none else some o.timeout := by
  unfold buildApiUrl
  rw [setAnimationParams_params_other _ _ _ (by decide) (by decide) (by decide),
      setRenderingParams_params_timeout]
  split_ifs
  · rw [setContentBlockingParams_params_other _ _ _ (by decide) (by decide),
        setViewportParams_params_other _ _ _ (by decide) (by decide) (by decide),
        ApiUrl.params_set_ne _ _ _ _ (by decide), ApiUrl.params_set_ne _ _ _ _ (by decide),
        ApiUrl.params_set_ne _ _ _ _ (by decide), ApiUrl.params_set_ne _ _ _ _ (by decide)]
  · rfl

lemma buildApiUrl_params_wait (f k : String) (o : ScreenshotOptions) :
    (buildApiUrl f k o).params "scripts_wait_until" =
      if o.waitUntil = "load" then none else some o.waitUntil := by
  unfold buildApiUrl
  rw [setAnimationParams_params_wait]
  split_ifs
  · rw [setRenderingParams_params_other _ _ _ (by decide) (by decide) (by decide),
        setContentBlockingParams_params_other _ _ _ (by decide) (by decide),
        setViewportParams_params_other _ _ _ (by decide) (by decide) (by decide),
        ApiUrl.params_set_ne _ _ _ _ (by decide), ApiUrl.params_set_ne _ _ _ _ (by decide),
        ApiUrl.params_set_ne _ _ _ _ (by decide), ApiUrl.params_set_ne _ _ _ _ (by decide)]
  · rfl

lemma buildApiUrl_params_device (f k : String) (o : ScreenshotOptions)
    (h : o.devicePreset ≠ "" ∧ o.devicePreset ≠ "custom") :
    (buildApiUrl f k o).params "viewport_device" = some o.devicePreset ∧
    (buildApiUrl f k o).params "viewport_width" = none ∧
    (buildApiUrl f k o).params "viewport_height" = none := by
  unfold buildApiUrl
  rw [setAnimationParams_params_other _ _ _ (by decide) (by decide) (by decide),
      setAnimationParams_params_other _ _ _ (by decide) (by decide) (by decide),
      setAnimationParams_params_other _ _ _ (by decide) (by decide) (by decide),
      setRenderingParams_params_other _ _ _ (by decide) (by decide) (by decide),
      setRenderingParams_params_other _ _ _ (by decide) (by decide) (by decide),
      setRenderingParams_params_other _ _ _ (by decide) (by decide) (by decide),
      setContentBlockingParams_params_other _ _ _ (by decide) (by decide),
      setContentBlockingParams_params_other _ _ _ (by decide) (by decide),
      setContentBlockingParams_params_other _ _ _ (by decide) (by decide)]
  have hv := setViewportParams_params_device
    (((((ApiUrl.mk "https://api.screenshotone.com/take" (fun _ => none)).set "access_key" k).set
      "url" f).set "format" (formatName o.format)).set "full_page" (toString o.fullPage)) o h
  refine ⟨hv.1, ?_, ?_⟩
  · rw [hv.2.1, ApiUrl.params_set_ne _ _ _ _ (by decide), ApiUrl.params_set_ne _ _ _ _ (by decide),
        ApiUrl.params_set_ne _ _ _ _ (by decide), ApiUrl.params_set_ne _ _ _ _ (by decide)]
  · rw [hv.2.2, ApiUrl.params_set_ne _ _ _ _ (by decide), ApiUrl.params_set_ne _ _ _ _ (by decide),
        ApiUrl.params_set_ne _ _ _ _ (by decide), ApiUrl.params_set_ne _ _ _ _ (by decide)]

lemma buildApiUrl_params_custom (f k : String) (o : ScreenshotOptions)
    (h : o.devicePreset = "" ∨ o.devicePreset = "custom") :
    (buildApiUrl f k o).params "viewport_device" = none ∧
    (buildApiUrl f k o).params "viewport_width" = some o.viewportWidth ∧
    (buildApiUrl f k o).params "viewport_height" =
      (if o.viewportHeight = "" then none else some o.viewportHeight) := by
  unfold buildApiUrl
  rw [setAnimationParams_params_other _ _ _ (by decide) (by decide) (by decide),
      setAnimationParams_params_other _ _ _ (by decide) (by decide) (by decide),
      setAnimationParams_params_other _ _ _ (by decide) (by decide) (by decide),
      setRenderingParams_params_other _ _ _ (by decide) (by decide) (by decide),
      setRenderingParams_params_other _ _ _ (by decide) (by decide) (by decide),
      setRenderingParams_params_other _ _ _ (by decide) (by decide) (by decide),
      setContentBlockingParams_params_other _ _ _ (by decide) (by decide),
      setContentBlockingParams_params_other _ _ _ (by decide) (by decide),
      setContentBlockingParams_params_other _ _ _ (by decide) (by decide)]
  have hv := setViewportParams_params_custom
    (((((ApiUrl.mk "https://api.screenshotone.com/take" (fun _ => none)).set "access_key" k).set
      "url" f).set "format" (formatName o.format)).set "full_page" (toString o.fullPage)) o h
  refine ⟨?_, hv.2.1, ?_⟩
  · rw [hv.1, ApiUrl.params_set_ne _ _ _ _ (by decide), ApiUrl.params_set_ne _ _ _ _ (by decide),
        ApiUrl.params_set_ne _ _ _ _ (by decide), ApiUrl.params_set_ne _ _ _ _ (by decide)]
  · rw [hv.2.2]
    split_ifs
    · rw [ApiUrl.params_set_ne _ _ _ _ (by decide), ApiUrl.params_set_ne _ _ _ _ (by decide),
          ApiUrl.params_set_ne _ _ _ _ (by decide), ApiUrl.params_set_ne _ _ _ _ (by decide)]
    · rfl

lemma totalSections_mul_ge (H : Nat) : H ≤ totalSections H * tileMaxHeight := by
  unfold totalSections tileMaxHeight
  omega

lemma totalSections_pred_mul_lt (H : Nat) (h : 0 < H) :
    (totalSections H - 1) * tileMaxHeight < H := by
  unfold totalSections tileMaxHeight
  omega

lemma totalSections_pos (H : Nat) (h : 0 < H) : 0 < totalSections H := by
  unfold totalSections tileMaxHeight
  omega

lemma splitImage_eq (img : DecodedImage) :
    splitImage true true img = (List.range (totalSections img.height)).map (sectionAt img) := by
  simp [splitImage]

lemma splitImage_length (img : DecodedImage) :
    (splitImage true true img).length = totalSections img.height := by
  simp [splitImage_eq]

lemma splitImage_map_index (img : DecodedImage) :
    (splitImage true true img).map (fun s => s.index) =
      (List.range (totalSections img.height)).map (fun i => i + 1) := by
  rw [splitImage_eq, List.map_map]
  rfl

lemma splitImage_map_height (img : DecodedImage) (h : 0 < img.height) :
    (splitImage true true img).map sectionPixelHeight =
      List.replicate (totalSections img.height - 1) tileMaxHeight ++
        [img.height - (totalSections img.height - 1) * tileMaxHeight] := by
  rw [splitImage_eq, List.map_map]
  have hcomp : sectionPixelHeight ∘ sectionAt img =
      fun i => min tileMaxHeight (img.height - i * tileMaxHeight) := rfl
  rw [hcomp]
  have hk : 0 < totalSections img.height := totalSections_pos _ h
  apply List.ext_getElem
  · simp
    omega
  · intro i hi hi'
    rw [List.getElem_map, List.getElem_range]
    by_cases hlast : i < totalSections img.height - 1
    · rw [List.getElem_append_left (by simpa using hlast)]
      rw [List.getElem_replicate]
      rw [min_eq_left]
      have := totalSections_mul_ge img.height
      unfold totalSections tileMaxHeight at *
      omega
    · have hieq : i = totalSections img.height - 1 := by
        simp at hi
        omega
      rw [List.getElem_append_right (by simpa using hlast)]
      simp [hieq]
      have := totalSections_mul_ge img.height
      unfold totalSections tileMaxHeight at *
      omega

lemma restackPixel_cons_png (w h : Nat) (p : Nat → Nat → Nat) (idx : Nat)
    (rest : List ScreenshotSection) (x y : Nat) :
    restackPixel
        ({ dataUrl := DataUrl.png { width := w, height := h, pixel := p }, index := idx } :: rest)
        x y =
      if y < h then p x y else restackPixel rest x (y - h) := rfl

lemma sectionAt_eq (img : DecodedImage) (i : Nat) :
    sectionAt img i =
      { dataUrl := DataUrl.png
          { width := img.width
            height := min tileMaxHeight (img.height - i * tileMaxHeight)
            pixel := fun x y => img.pixel x (i * tileMaxHeight + y) }
        index := i + 1 } := rfl

lemma restack_aux (img : DecodedImage) : ∀ (n i : Nat), i + n = totalSections img.height →
    ∀ x y, y < img.height - i * tileMaxHeight →
    restackPixel ((List.range' i n).map (sectionAt img)) x y = img.pixel x (i * tileMaxHeight + y) := by
  intro n
  induction n with
  | zero =>
    intro i hi x y hy
    exfalso
    have := totalSections_mul_ge img.height
    have hik : i = totalSections img.height := by omega
    subst hik
    omega
  | succ n ih =>
    intro i hi x y hy
    have hr : List.range' i (n + 1) = i :: List.range' (i + 1) n := rfl
    rw [hr, List.map_cons, sectionAt_eq, restackPixel_cons_png]
    split_ifs with hlt
    · rfl
    · have hmin : min tileMaxHeight (img.height - i * tileMaxHeight) = tileMaxHeight := by
        rcases Nat.le_total tileMaxHeight (img.height - i * tileMaxHeight) with hle | hle
        · exact min_eq_left hle
        · exfalso
          rw [min_eq_right hle] at hlt
          omega
      rw [hmin] at hlt ⊢
      have harg : (i + 1) * tileMaxHeight + (y - tileMaxHeight) = i * tileMaxHeight + y := by
        unfold tileMaxHeight at *
        omega
      rw [ih (i + 1) (by omega) x (y - tileMaxHeight)
        (by unfold tileMaxHeight at *; omega), harg]

lemma splitImage_restack (img : DecodedImage) :
    ∀ x y, y < img.height → restackPixel (splitImage true true img) x y = img.pixel x y := by
  intro x y hy
  rw [splitImage_eq, List.range_eq_range']
  have := restack_aux img (totalSections img.height) 0 (by omega) x y (by simpa using hy)
  simpa using this

/-- C1: for every decoded image with positive pixel height, splitImage
produces exactly ceil(height/4096) sections (the length k of its output
satisfies H ≤ k*4096 and (k-1)*4096 < H, which pins k to the ceiling)
in index order 1..k; every section except possibly the last has pixel
height exactly 4096 and the last has height H - (k-1)*4096; an image of
height 9000 yields 3 sections of heights 4096, 4096, 808 with indices
1, 2, 3; and re-stacking the sections top-to-bottom in index order
reproduces the original pixel content exactly. -/
theorem splitImage_tiling_spec (img : DecodedImage) (hH : 0 < img.height) :
    img.height ≤ (splitImage true true img).length * 4096 ∧
    ((splitImage true true img).length - 1) * 4096 < img.height ∧
    (splitImage true true img).map (fun s => s.index) =
      (List.range (splitImage true true img).length).map (fun i => i + 1) ∧
    (splitImage true true img).map sectionPixelHeight =
      List.replicate ((splitImage true true img).length - 1) 4096 ++
        [img.height - ((splitImage true true img).length - 1) * 4096] ∧
    (∀ x y, y < img.height → restackPixel (splitImage true true img) x y = img.pixel x y) ∧
    (img.height = 9000 →
      (splitImage true true img).length = 3 ∧
      (splitImage true true img).map sectionPixelHeight = [4096, 4096, 808] ∧
      (splitImage true true img).map (fun s => s.index) = [1, 2, 3]) := by
  have hlen := splitImage_length img
  have hge := totalSections_mul_ge img.height
  have hlt := totalSections_pred_mul_lt img.height hH
  have hhts := splitImage_map_height img hH
  unfold tileMaxHeight at hge hlt hhts
  refine ⟨by rw [hlen]; exact hge, by rw [hlen]; exact hlt, ?_, by rw [hlen]; exact hhts,
    splitImage_restack img, ?_⟩
  · rw [hlen]
    exact splitImage_map_index img
  · intro h9
    have hk : totalSections img.height = 3 := by
      rw [h9]
      decide
    refine ⟨by rw [hlen, hk], ?_, ?_⟩
    · rw [hhts, hk, h9]
      decide
    · have hidx := splitImage_map_index img
      rw [hk] at hidx
      rw [hidx]
      decide

def img0C1 : DecodedImage := { width := 100, height := 9000, pixel := fun _ _ => 0 }

/-- Witness for splitImage_tiling_spec at a concrete 100 by 9000 image. -/
theorem splitImage_tiling_spec_witness :
    0 < img0C1.height ∧
    (img0C1.height ≤ (splitImage true true img0C1).length * 4096 ∧
    ((splitImage true true img0C1).length - 1) * 4096 < img0C1.height ∧
    (splitImage true true img0C1).map (fun s => s.index) =
      (List.range (splitImage true true img0C1).length).map (fun i => i + 1) ∧
    (splitImage true true img0C1).map sectionPixelHeight =
      List.replicate ((splitImage true true img0C1).length - 1) 4096 ++
        [img0C1.height - ((splitImage true true img0C1).length - 1) * 4096] ∧
    (∀ x y, y < img0C1.height → restackPixel (splitImage true true img0C1) x y = img0C1.pixel x y) ∧
    (img0C1.height = 9000 →
      (splitImage true true img0C1).length = 3 ∧
      (splitImage true true img0C1).map sectionPixelHeight = [4096, 4096, 808] ∧
      (splitImage true true img0C1).map (fun s => s.index) = [1, 2, 3])) :=
  ⟨by decide, splitImage_tiling_spec img0C1 (by decide)⟩

/-- The default options value of the UI form (src/src/App.tsx lines
91-111). -/
def defaultOptions : ScreenshotOptions :=
  { format := Format.png
    fullPage := true
    viewportWidth := "1920"
    viewportHeight := "1080"
    devicePreset := "custom"
    blockAds := false
    blockCookieBanners := false
    timeout := "60"
    cache := false
    deviceScaleFactor := "1"
    delay := "0"
    enableAnimatedCapture := false
    animationDuration := "5"
    scrollDelay := "500"
    waitUntil := "load"
    preScroll := false
    scrollStrategy := ScrollStrategy.simple
    progressiveScrollSteps := "10"
    customScrollScript := "" }

/-- C2 counterexample: with the empty device preset (a value that is
not "custom"), setViewportParams falls into its else branch, so no
device-preset parameter is sent and the explicit viewport width is NOT
suppressed, contradicting the claim that any preset other than
"custom" sends only the device-preset parameter. -/
theorem buildApiUrl_viewport_counterexample :
    ({ defaultOptions with devicePreset := "" } : ScreenshotOptions).devicePreset ≠ "custom" ∧
    (buildApiUrl "https://example.com" "key"
        { defaultOptions with devicePreset := "" }).params "viewport_device" = none ∧
    (buildApiUrl "https://example.com" "key"
        { defaultOptions with devicePreset := "" }).params "viewport_width" = some "1920" :=
  ⟨by decide, by decide, by decide⟩

/-- C2 (amended): buildApiUrl omits the scale factor exactly when it is
"1", the timeout exactly when it is "60", the delay exactly when it is
"0" and the wait-until exactly when it is "load", includes any other
value, and always sets the cache flag as a stringified boolean; a
NON-EMPTY device preset other than "custom" sends only the
device-preset parameter and suppresses the explicit viewport
parameters, while a preset of "custom" (or the empty string) sends the
width always and the height only if non-empty. -/
theorem buildApiUrl_param_rules (f k : String) (o : ScreenshotOptions) :
    (buildApiUrl f k o).params "device_scale_factor" =
      (if o.deviceScaleFactor = "1" then none else some o.deviceScaleFactor) ∧
    (buildApiUrl f k o).params "timeout" =
      (if o.timeout = "60" then none else some o.timeout) ∧
    ((buildApiUrl f k o).params "delay" = none ↔ o.delay = "0") ∧
    (buildApiUrl f k o).params "scripts_wait_until" =
      (if o.waitUntil = "load" then none else some o.waitUntil) ∧
    (buildApiUrl f k o).params "cache" = some (toString o.cache) ∧
    (o.devicePreset ≠ "" → o.devicePreset ≠ "custom" →
      (buildApiUrl f k o).params "viewport_device" = some o.devicePreset ∧
      (buildApiUrl f k o).params "viewport_width" = none ∧
      (buildApiUrl f k o).params "viewport_height" = none) ∧
    ((o.devicePreset = "" ∨ o.devicePreset = "custom") →
      (buildApiUrl f k o).params "viewport_device" = none ∧
      (buildApiUrl f k o).params "viewport_width" = some o.viewportWidth ∧
      (buildApiUrl f k o).params "viewport_height" =
        (if o.viewportHeight = "" then none else some o.viewportHeight)) := by
  refine ⟨buildApiUrl_params_scale f k o, buildApiUrl_params_timeout f k o, ?_,
    buildApiUrl_params_wait f k o, buildApiUrl_params_cache f k o,
    fun h1 h2 => buildApiUrl_params_device f k o ⟨h1, h2⟩,
    fun h => buildApiUrl_params_custom f k o h⟩
  rw [buildApiUrl_params_delay]
  split_ifs with h <;> simp [h]

/-- Witness for buildApiUrl_param_rules at a concrete options value
with a real device preset. -/
theorem buildApiUrl_param_rules_witness :
    (buildApiUrl "https://example.com" "key"
        { defaultOptions with devicePreset := "ipad" }).params "viewport_device" = some "ipad" ∧
    (buildApiUrl "https://example.com" "key"
        { defaultOptions with devicePreset := "ipad" }).params "viewport_width" = none ∧
    (buildApiUrl "https://example.com" "key"
        { defaultOptions with devicePreset := "ipad" }).params "cache" = some "false" := by
  have h := buildApiUrl_param_rules "https://example.com" "key"
    { defaultOptions with devicePreset := "ipad" }
  have hdev := h.2.2.2.2.2.1 (by decide) (by decide)
  exact ⟨hdev.1, hdev.2.1, by rw [h.2.2.2.2.1]; decide⟩

/-- C3: every filename produced by downloadAllSections is
rootDomain-DD-MM-YYYY-section-index.ext with ext mapping jpeg to jpg
and otherwise the format name, where rootDomain is the hostname of the
source URL with a leading www. stripped; and the filename derived for a
non-tiled format (observable through the pdf auto-download of
processScreenshotResponse) is rootDomain-DD-MM-YYYY.ext. -/
theorem downloadFilenames_spec (secs : List ScreenshotSection) (o : ScreenshotOptions)
    (url : String) (now : JsDate) (canvasA ctxA : Bool) (imageUrl : String) (load : ImageLoad) :
    (downloadAllSections secs o url now).1.map Prod.fst =
      secs.map (fun s => extractRootDomain url ++ "-" ++ getCurrentDate now ++ "-section-" ++
        toString s.index ++ "." ++
        (if o.format = Format.jpeg then "jpg" else formatName o.format)) ∧
    (o.format = Format.pdf →
      (processScreenshotResponse canvasA ctxA imageUrl load o url now).2 =
        [(extractRootDomain url ++ "-" ++ getCurrentDate now ++ "." ++
          (if o.format = Format.jpeg then "jpg" else formatName o.format),
          DataUrl.blob imageUrl)]) := by
  constructor
  · by_cases h : secs.length = 0
    · unfold downloadAllSections
      rw [if_pos h, List.length_eq_zero.mp h]
      rfl
    · unfold downloadAllSections
      rw [if_neg h, List.map_map]
      rfl
  · intro hpdf
    simp [processScreenshotResponse, hpdf]

/-- Witness for downloadFilenames_spec at a concrete pdf capture. -/
theorem downloadFilenames_spec_witness :
    (downloadAllSections [⟨DataUrl.blob "b", 1⟩] { defaultOptions with format := Format.pdf }
        "https://example.com" ⟨1, 0, 2025⟩).1.map Prod.fst =
      ([⟨DataUrl.blob "b", 1⟩] : List ScreenshotSection).map (fun s =>
        extractRootDomain "https://example.com" ++ "-" ++ getCurrentDate ⟨1, 0, 2025⟩ ++
          "-section-" ++ toString s.index ++ "." ++
          (if ({ defaultOptions with format := Format.pdf } : ScreenshotOptions).format =
              Format.jpeg then "jpg"
            else formatName ({ defaultOptions with format := Format.pdf } : ScreenshotOptions).format)) ∧
    (processScreenshotResponse true true "u" ImageLoad.fail
        { defaultOptions with format := Format.pdf } "https://example.com" ⟨1, 0, 2025⟩).2 =
      [(extractRootDomain "https://example.com" ++ "-" ++ getCurrentDate ⟨1, 0, 2025⟩ ++ "." ++
        (if ({ defaultOptions with format := Format.pdf } : ScreenshotOptions).format =
            Format.jpeg then "jpg"
          else formatName ({ defaultOptions with format := Format.pdf } : ScreenshotOptions).format),
        DataUrl.blob "u")] := by
  have h := downloadFilenames_spec [⟨DataUrl.blob "b", 1⟩] { defaultOptions with format := Format.pdf }
    "https://example.com" ⟨1, 0, 2025⟩ true true "u" ImageLoad.fail
  exact ⟨h.1, h.2 rfl⟩

/-- C4 counterexample: on url https://www.example.com/page with format
png, section index 2 and the concrete date 25-12-2025, the derived
filename is example.com-25-12-2025-section-2.png, not the
example-25-12-2025-section-2.png stated by the claim (the root domain
keeps its .com suffix: only the leading www. is stripped). -/
theorem deriveFilename_counterexample :
    (downloadAllSections [⟨DataUrl.blob "b", 2⟩] defaultOptions "https://www.example.com/page"
        ⟨25, 11, 2025⟩).1.map Prod.fst = ["example.com-25-12-2025-section-2.png"] ∧
    ("example.com-25-12-2025-section-2.png" : String) ≠ "example-25-12-2025-section-2.png" :=
  ⟨by decide, by decide⟩

/-- C4 (amended): filename derivation is a pure function of its inputs
(it is embedded as a Lean function of url, format, index and date); on
the input URL https://www.example.com/page with format png, section
index i and date D it returns exactly example.com-{D}-section-{i}.png
(the claim wrote example-{D}; the code keeps the full registrable
domain example.com); the www. stripping removes only a leading www. of
the hostname, never interior occurrences, so the hostname
app.www.example.com keeps its interior www. -/
theorem deriveFilename_spec (now : JsDate) (i : Nat) (d : DataUrl) :
    (downloadAllSections [⟨d, i⟩] defaultOptions "https://www.example.com/page" now).1.map
        Prod.fst =
      ["example.com" ++ "-" ++ getCurrentDate now ++ "-section-" ++ toString i ++ "." ++ "png"] ∧
    stripLeadingWww "app.www.example.com" = "app.www.example.com" ∧
    extractRootDomain "https://app.www.example.com/x" = "app.www.example.com" := by
  refine ⟨?_, by decide, by decide⟩
  unfold downloadAllSections
  rw [if_neg (by simp)]
  rw [List.map_map]
  show [extractRootDomain "https://www.example.com/page" ++ "-" ++ getCurrentDate now ++
    "-section-" ++ toString i ++ "." ++
    (if defaultOptions.format = Format.jpeg then "jpg" else formatName defaultOptions.format)] = _
  rw [show extractRootDomain "https://www.example.com/page" = "example.com" from by decide,
    show (if defaultOptions.format = Format.jpeg then "jpg" else formatName defaultOptions.format)
      = "png" from by decide]

/-- C5 counterexample: when the drawing surface cannot be acquired
(canvasRef.current is null), splitImage returns the empty list without
throwing, so the onload path of processScreenshotResponse stores zero
sections with NO error and a SUCCESS message ("Screenshot captured
successfully!"), contradicting the claim that the state carries an
error message and no success message. -/
theorem processResponse_surface_counterexample :
    ((processScreenshotResponse false true "blob:u" (ImageLoad.ok img0C1) defaultOptions
        "https://example.com" ⟨1, 0, 2025⟩).1.sections = [] ∧
     (processScreenshotResponse false true "blob:u" (ImageLoad.ok img0C1) defaultOptions
        "https://example.com" ⟨1, 0, 2025⟩).1.error = none ∧
     (processScreenshotResponse false true "blob:u" (ImageLoad.ok img0C1) defaultOptions
        "https://example.com" ⟨1, 0, 2025⟩).1.success =
       some "Screenshot captured successfully!") := by
  refine ⟨rfl, rfl, rfl⟩

/-- C5 (amended): when the image payload cannot be decoded (the image
onerror fires), the tiling operation fails with an image-processing
error: the state carries an error message, no success message and zero
sections.  When the drawing surface cannot be acquired (canvas or 2D
context unavailable), zero sections are produced — no partial tile
list is ever surfaced — but the state carries a success message and no
error, because splitImage returns an empty list instead of throwing. -/
theorem processResponse_failure_spec (canvasA ctxA : Bool) (imageUrl : String)
    (o : ScreenshotOptions) (pageUrl : String) (now : JsDate) (img : DecodedImage) :
    (o.format = Format.png → o.fullPage = true →
      (processScreenshotResponse canvasA ctxA imageUrl ImageLoad.fail o pageUrl now).1 =
        { isLoading := false
          sections := []
          error := some "Failed to load the screenshot image"
          success := none }) ∧
    (o.format = Format.png → o.fullPage = true → (canvasA = false ∨ ctxA = false) →
      (processScreenshotResponse canvasA ctxA imageUrl (ImageLoad.ok img) o pageUrl now).1.sections
          = [] ∧
      (processScreenshotResponse canvasA ctxA imageUrl (ImageLoad.ok img) o pageUrl now).1.error
          = none ∧
      (processScreenshotResponse canvasA ctxA imageUrl (ImageLoad.ok img) o pageUrl now).1.success
          = some "Screenshot captured successfully!") := by
  constructor
  · intro hf hfp
    unfold processScreenshotResponse
    rw [if_pos ⟨hf, hfp⟩]
  · intro hf hfp hcanvas
    have hsplit : splitImage canvasA ctxA img = [] := by
      rcases hcanvas with hc | hc <;> subst hc <;> simp [splitImage]
    unfold processScreenshotResponse
    rw [if_pos ⟨hf, hfp⟩]
    simp only [hsplit]
    exact ⟨trivial, trivial, by simp⟩

/-- Witness for processResponse_failure_spec: png full-page capture
with the canvas unavailable, and a decode failure. -/
theorem processResponse_failure_spec_witness :
    ((processScreenshotResponse false true "blob:w" ImageLoad.fail defaultOptions
        "https://example.com" ⟨2, 0, 2025⟩).1 =
      { isLoading := false
        sections := []
        error := some "Failed to load the screenshot image"
        success := none }) ∧
    (processScreenshotResponse false true "blob:w" (ImageLoad.ok img0C1) defaultOptions
        "https://example.com" ⟨2, 0, 2025⟩).1.sections = [] ∧
    (processScreenshotResponse false true "blob:w" (ImageLoad.ok img0C1) defaultOptions
        "https://example.com" ⟨2, 0, 2025⟩).1.error = none ∧
    (processScreenshotResponse false true "blob:w" (ImageLoad.ok img0C1) defaultOptions
        "https://example.com" ⟨2, 0, 2025⟩).1.success =
      some "Screenshot captured successfully!" := by
  have h := processResponse_failure_spec false true "blob:w" defaultOptions
    "https://example.com" ⟨2, 0, 2025⟩ img0C1
  exact ⟨h.1 rfl rfl, h.2 rfl rfl (Or.inl rfl)⟩

/-- C6: for every options value whose delay string is not "0", the
delay parameter sent is the parsed delay clamped by Math.min to a
maximum of 30 — in particular "45" is serialized as "30" — and a delay
string of "0" causes the parameter to be omitted. -/
theorem delay_clamping_spec (f k : String) (o : ScreenshotOptions) :
    (o.delay ≠ "0" →
      (buildApiUrl f k o).params "delay" =
        some (jsNumToString (jsMin (jsParseInt o.delay) (JSNum.int 30)))) ∧
    (o.delay = "0" → (buildApiUrl f k o).params "delay" = none) ∧
    (o.delay = "45" → (buildApiUrl f k o).params "delay" = some "30") := by
  refine ⟨fun h => ?_, fun h => ?_, fun h => ?_⟩ <;> rw [buildApiUrl_params_delay]
  · rw [if_neg h]
  · rw [if_pos h]
  · rw [if_neg (by rw [h]; decide), h]
    decide

/-- Witness for delay_clamping_spec: the delay "45" is sent as "30". -/
theorem delay_clamping_spec_witness :
    (buildApiUrl "https://example.com" "key"
        { defaultOptions with delay := "45" }).params "delay" = some "30" :=
  (delay_clamping_spec "https://example.com" "key" { defaultOptions with delay := "45" }).2.2 rfl

/-- C10: the builder does not validate that the delay is numeric: when
the delay string is not "0" and parseInt fails (NaN), the built
request still includes a delay parameter and its serialized value is
the literal string "NaN" (Math.min of NaN and 30 is NaN). -/
theorem delay_nan_spec (f k : String) (o : ScreenshotOptions)
    (h0 : o.delay ≠ "0") (hnan : jsParseInt o.delay = JSNum.nan) :
    (buildApiUrl f k o).params "delay" = some "NaN" := by
  rw [buildApiUrl_params_delay, if_neg h0, hnan]
  rfl

/-- Witness for delay_nan_spec at the delay string "abc". -/
theorem delay_nan_spec_witness :
    ({ defaultOptions with delay := "abc" } : ScreenshotOptions).delay ≠ "0" ∧
    jsParseInt ({ defaultOptions with delay := "abc" } : ScreenshotOptions).delay = JSNum.nan ∧
    (buildApiUrl "https://example.com" "k"
        { defaultOptions with delay := "abc" }).params "delay" = some "NaN" :=
  ⟨by decide, by decide,
    delay_nan_spec "https://example.com" "k" { defaultOptions with delay := "abc" }
      (by decide) (by decide)⟩

lemma handleApiError_decomp (status : Nat) (statusText : String) (body : Option String) :
    handleApiError status statusText body =
      "API error: " ++ toString status ++ " " ++ statusText ++
        (match body with
          | some t => if t ≠ "" then " - " ++ t else ""
          | none => "") ++ errorHint status := by
  unfold handleApiError
  cases body with
  | none => simp [String.append_assoc]
  | some t =>
    dsimp only
    split_ifs with h <;> simp [h, String.append_assoc]

/-- C7: for every non-success response the error message combines the
numeric status code, the status text, and the body text when the body
is non-empty and readable, while a failure to read the body (none) is
swallowed and yields the same message as an empty body; and the
message for status 401 contains both the literal "401" and the fixed
invalid-or-expired-credential hint, with the analogous fixed hints
appended for 400 and 403. -/
theorem handleApiError_spec (status : Nat) (statusText : String) (body : Option String) :
    (handleApiError status statusText none = handleApiError status statusText (some "")) ∧
    (∀ b, b ≠ "" → handleApiError status statusText (some b) =
      "API error: " ++ toString status ++ " " ++ statusText ++ (" - " ++ b) ++
        errorHint status) ∧
    (errorHint 401 = hint401 ∧ errorHint 400 = hint400 ∧ errorHint 403 = hint403) ∧
    (∃ post, handleApiError 401 statusText body = "API error: " ++ "401" ++ post) ∧
    (∃ pre, handleApiError 401 statusText body = pre ++ hint401) ∧
    (∃ pre, handleApiError 400 statusText body = pre ++ hint400) ∧
    (∃ pre, handleApiError 403 statusText body = pre ++ hint403) := by
  refine ⟨?_, ?_, ⟨rfl, rfl, rfl⟩, ?_, ?_, ?_, ?_⟩
  · rw [handleApiError_decomp, handleApiError_decomp]
    simp
  · intro b hb
    rw [handleApiError_decomp]
    simp [hb, String.append_assoc]
  · refine ⟨" " ++ statusText ++
      ((match body with
        | some t => if t ≠ "" then " - " ++ t else ""
        | none => "") ++ errorHint 401), ?_⟩
    rw [handleApiError_decomp, show (toString (401 : Nat)) = "401" from by decide]
    simp only [String.append_assoc]
  · refine ⟨"API error: " ++ toString (401 : Nat) ++ " " ++ statusText ++
      (match body with
        | some t => if t ≠ "" then " - " ++ t else ""
        | none => ""), ?_⟩
    rw [handleApiError_decomp]
    rfl
  · refine ⟨"API error: " ++ toString (400 : Nat) ++ " " ++ statusText ++
      (match body with
        | some t => if t ≠ "" then " - " ++ t else ""
        | none => ""), ?_⟩
    rw [handleApiError_decomp]
    rfl
  · refine ⟨"API error: " ++ toString (403 : Nat) ++ " " ++ statusText ++
      (match body with
        | some t => if t ≠ "" then " - " ++ t else ""
        | none => ""), ?_⟩
    rw [handleApiError_decomp]
    rfl

/-- Witness for handleApiError_spec at a concrete 401 response. -/
theorem handleApiError_spec_witness :
    handleApiError 401 "Unauthorized" (some "bad key") =
      "API error: " ++ toString (401 : Nat) ++ " " ++ "Unauthorized" ++ (" - " ++ "bad key") ++
        errorHint 401 :=
  (handleApiError_spec 401 "Unauthorized" (some "bad key")).2.1 "bad key" (by decide)

/-- The idle capture state. -/
def emptyState : ScreenshotState :=
  { isLoading := false, sections := [], error := none, success := none }

lemma processResponse_fail_eq (canvasA ctxA : Bool) (imageUrl : String)
    (o : ScreenshotOptions) (pageUrl : String) (now : JsDate)
    (hf : o.format = Format.png) (hfp : o.fullPage = true) :
    (processScreenshotResponse canvasA ctxA imageUrl ImageLoad.fail o pageUrl now).1 =
      { isLoading := false
        sections := []
        error := some "Failed to load the screenshot image"
        success := none } := by
  unfold processScreenshotResponse
  rw [if_pos ⟨hf, hfp⟩]

/-- C8 counterexample: an input-validation error (invalid URL) only
sets the error message by spreading the previous state, so a previous
non-empty section list survives the error, contradicting the claim
that every error leaves an empty section list. -/
theorem takeScreenshot_clear_counterexample :
    ((takeScreenshot
        { isLoading := false, sections := [⟨DataUrl.blob "old", 1⟩], error := none, success := none }
        "" "key" defaultOptions (FetchResult.httpError 500 "Server Error" none)
        true true ⟨1, 0, 2025⟩).1.error ≠ none) ∧
    ((takeScreenshot
        { isLoading := false, sections := [⟨DataUrl.blob "old", 1⟩], error := none, success := none }
        "" "key" defaultOptions (FetchResult.httpError 500 "Server Error" none)
        true true ⟨1, 0, 2025⟩).1.sections ≠ []) := by
  have hred : takeScreenshot
      { isLoading := false, sections := [⟨DataUrl.blob "old", 1⟩], error := none, success := none }
      "" "key" defaultOptions (FetchResult.httpError 500 "Server Error" none)
      true true ⟨1, 0, 2025⟩ =
      ({ isLoading := false, sections := [⟨DataUrl.blob "old", 1⟩],
         error := some "Please enter a valid URL (e.g., https://example.com or example.com)",
         success := none }, none, []) := by
    unfold takeScreenshot
    rw [if_pos (by decide)]
  rw [hred]
  exact ⟨by simp, by simp⟩

/-- C8 (amended): transport errors (non-2xx responses) and decode
errors reset the state to not-loading with an empty section list,
exactly one error message and no success message; input-validation
errors (malformed URL or missing credential) set exactly one error
message but spread the previous state otherwise, leaving the loading
flag and any prior sections untouched. -/
theorem takeScreenshot_error_state_spec (prev : ScreenshotState) (url apiKey : String)
    (o : ScreenshotOptions) (fetch : FetchResult) (canvasA ctxA : Bool) (now : JsDate)
    (st : Nat) (stt : String) (body : Option String) (imageUrl : String) :
    (isValidUrl url = false →
      takeScreenshot prev url apiKey o fetch canvasA ctxA now =
        ({ prev with
            error := some "Please enter a valid URL (e.g., https://example.com or example.com)" },
         none, [])) ∧
    (isValidUrl url = true → jsTrim apiKey = "" →
      takeScreenshot prev url apiKey o fetch canvasA ctxA now =
        ({ prev with error := some "Please enter your ScreenshotOne API key" }, none, [])) ∧
    (isValidUrl url = true → jsTrim apiKey ≠ "" → fetch = FetchResult.httpError st stt body →
      (takeScreenshot prev url apiKey o fetch canvasA ctxA now).1 =
        { isLoading := false
          sections := []
          error := some (handleApiError st stt body)
          success := none }) ∧
    (isValidUrl url = true → jsTrim apiKey ≠ "" → fetch = FetchResult.ok imageUrl ImageLoad.fail →
      o.format = Format.png → o.fullPage = true →
      (takeScreenshot prev url apiKey o fetch canvasA ctxA now).1 =
        { isLoading := false
          sections := []
          error := some "Failed to load the screenshot image"
          success := none }) := by
  refine ⟨fun hv => ?_, fun hv hk => ?_, fun hv hk hf => ?_, fun hv hk hf hfmt hfp => ?_⟩
  · unfold takeScreenshot
    rw [if_pos (by simp [hv])]
  · unfold takeScreenshot
    rw [if_neg (by simp [hv]), if_pos hk]
  · subst hf
    unfold takeScreenshot
    rw [if_neg (by simp [hv]), if_neg hk]
  · subst hf
    unfold takeScreenshot
    rw [if_neg (by simp [hv]), if_neg hk]
    exact processResponse_fail_eq canvasA ctxA imageUrl o url now hfmt hfp

/-- Witness for takeScreenshot_error_state_spec: an invalid URL and a
non-2xx response at concrete inputs. -/
theorem takeScreenshot_error_state_spec_witness :
    (takeScreenshot emptyState "" "key" defaultOptions
        (FetchResult.httpError 500 "Server Error" none) true true ⟨1, 0, 2025⟩ =
      ({ emptyState with
          error := some "Please enter a valid URL (e.g., https://example.com or example.com)" },
       none, [])) ∧
    ((takeScreenshot emptyState "example.com" "key" defaultOptions
        (FetchResult.httpError 500 "Server Error" none) true true ⟨1, 0, 2025⟩).1 =
      { isLoading := false
        sections := []
        error := some (handleApiError 500 "Server Error" none)
        success := none }) := by
  have h1 := takeScreenshot_error_state_spec emptyState "" "key" defaultOptions
    (FetchResult.httpError 500 "Server Error" none) true true ⟨1, 0, 2025⟩
    500 "Server Error" none "u"
  have h2 := takeScreenshot_error_state_spec emptyState "example.com" "key" defaultOptions
    (FetchResult.httpError 500 "Server Error" none) true true ⟨1, 0, 2025⟩
    500 "Server Error" none "u"
  exact ⟨h1.1 (by decide), h2.2.2.1 (by decide) (by decide) rfl⟩

/-- C9 counterexample: the input "ftp://example.com" contains a URL
scheme, passes the URL validation, and is NOT passed through
unchanged: since it does not start with "http", the code prepends
https:// and the request carries the target URL
"https://ftp://example.com", contradicting the claim that any URL with
a scheme is sent unchanged. -/
theorem prependScheme_counterexample :
    specHasScheme "ftp://example.com" = true ∧
    isValidUrl "ftp://example.com" = true ∧
    (∃ u, (takeScreenshot emptyState "ftp://example.com" "key" defaultOptions
        (FetchResult.httpError 500 "e" none) true true ⟨1, 0, 2025⟩).2.1 = some u ∧
      u.params "url" = some "https://ftp://example.com") ∧
    ("https://ftp://example.com" : String) ≠ "ftp://example.com" := by
  refine ⟨by decide, by decide, ?_, by decide⟩
  refine ⟨buildApiUrl ("https://" ++ "ftp://example.com") "key" defaultOptions, ?_, ?_⟩
  · unfold takeScreenshot
    rw [if_neg (by decide), if_neg (by decide)]
    rfl
  · rw [buildApiUrl_params_url]
    decide

/-- C9 (amended): the target URL passed to the parameter builder and
sent as the url query parameter equals the input with https://
prepended exactly when the input does not start with the four
characters "http", and equals the input unchanged when it does (the
code tests startsWith("http"), not the presence of a URL scheme). -/
theorem prependScheme_spec (prev : ScreenshotState) (url apiKey : String)
    (o : ScreenshotOptions) (st : Nat) (stt : String) (body : Option String)
    (canvasA ctxA : Bool) (now : JsDate)
    (hv : isValidUrl url = true) (hk : jsTrim apiKey ≠ "") :
    (takeScreenshot prev url apiKey o (FetchResult.httpError st stt body) canvasA ctxA now).2.1 =
      some (buildApiUrl (if strStartsWith url "http" then url else "https://" ++ url) apiKey o) ∧
    (strStartsWith url "http" = true →
      (buildApiUrl (if strStartsWith url "http" then url else "https://" ++ url) apiKey o).params
        "url" = some url) ∧
    (strStartsWith url "http" = false →
      (buildApiUrl (if strStartsWith url "http" then url else "https://" ++ url) apiKey o).params
        "url" = some ("https://" ++ url)) := by
  refine ⟨?_, fun h => ?_, fun h => ?_⟩
  · unfold takeScreenshot
    rw [if_neg (by simp [hv]), if_neg hk]
  · rw [if_pos h, buildApiUrl_params_url]
  · rw [if_neg (by simp [h]), buildApiUrl_params_url]

/-- Witness for prependScheme_spec: a schemeless input gets https://
prepended. -/
theorem prependScheme_spec_witness :
    (takeScreenshot emptyState "example.com" "key" defaultOptions
        (FetchResult.httpError 500 "e" none) true true ⟨1, 0, 2025⟩).2.1 =
      some (buildApiUrl (if strStartsWith "example.com" "http" then "example.com"
        else "https://" ++ "example.com") "key" defaultOptions) ∧
    (buildApiUrl (if strStartsWith "example.com" "http" then "example.com"
        else "https://" ++ "example.com") "key" defaultOptions).params "url" =
      some ("https://" ++ "example.com") := by
  have h := prependScheme_spec emptyState "example.com" "key" defaultOptions
    500 "e" none true true ⟨1, 0, 2025⟩ (by decide) (by decide)
  exact ⟨h.1, h.2.2 (by decide)⟩
